import Mathlib

/-!
Shallow embedding of the RIPS credit-note assistant (`app_rips_notas.py`).

The documents handled by the app (a `factura`, i.e. the source invoice, and a
`nota`, i.e. the credit note being repaired) are JSON objects carrying a list
`usuarios`; each user carries a document-type code, a document number and a
`servicios` block: a dict mapping service-category names (`consultas`,
`procedimientos`, ...) to lists of service items, each item being a dict of
scalar fields such as `vrServicio`.

Python dicts are modelled as association lists that preserve insertion order;
`d[k] = v` replaces the value in place when the key is already present and
appends a new entry otherwise.  Python numbers (int/float/bool) are modelled
as rationals.  The aspects of Python semantics that the functions under study
rely on are made explicit: truthiness of a `servicios` value (the `or` at the
heart of the user matcher), negative list indexing, and the uncaught
exceptions that the template row loop can raise (modelled as `none` results).
-/

/-! ### Association lists (insertion-ordered Python dicts) -/

def alistGet {κ α : Type} [DecidableEq κ] : List (κ × α) → κ → Option α
  | [], _ => none
  | (k', v) :: rest, k => if k' = k then some v else alistGet rest k

def alistSet {κ α : Type} [DecidableEq κ] : List (κ × α) → κ → α → List (κ × α)
  | [], k, v => [(k, v)]
  | (k', v') :: rest, k, v =>
      if k' = k then (k, v) :: rest else (k', v') :: alistSet rest k v

/-! ### Python list indexing (negative indices wrap once; out of range raises) -/

def pyIndex (len : Nat) (i : Int) : Option Nat :=
  if 0 ≤ i then (if i < (len : Int) then some i.toNat else none)
  else (if 0 ≤ i + (len : Int) then some (i + (len : Int)).toNat else none)

def pyGetList {α : Type} (l : List α) (i : Int) : Option α :=
  (pyIndex l.length i).bind fun n => l.get? n

def pySetList {α : Type} (l : List α) (i : Int) (v : α) : Option (List α) :=
  (pyIndex l.length i).map fun n => l.set n v

/-! ### Data model -/

/-- A scalar field stored inside a service item.  Python ints, floats and
bools (which satisfy `isinstance(-, (int, float))`) are `num`; every other
value is a string, `None`, or some other opaque value. -/
inductive FieldVal where
  | num (q : ℚ)
  | str (s : String)
  | null
  | other (tag : Nat)
deriving DecidableEq, Repr

/-- An element of a service-category list: a service item (a dict of fields)
or any non-dict value, which the code skips or chokes on. -/
inductive ItemVal where
  | dict (fields : List (String × FieldVal))
  | nondict (tag : Nat)
deriving DecidableEq, Repr

/-- A value of the `servicios` dict: a list of items, or a non-list value. -/
inductive SVal where
  | lst (items : List ItemVal)
  | nonlist (tag : Nat)
deriving DecidableEq, Repr

/-- The value stored under the key `servicios` of a user: a dict from
category names to `SVal`, or a non-dict value (with its Python truthiness,
which the `or` of the matcher observes). -/
inductive ServVal where
  | dict (entries : List (String × SVal))
  | nondict (truthy : Bool) (tag : Nat)
deriving DecidableEq, Repr

/-- A user entry of a RIPS document.  `servicios = none` models an absent
`servicios` key (`u.get("servicios")` then yields Python `None`); `extra`
holds the remaining fields of the user, which the code never touches. -/
structure Usuario where
  tipoDoc : Option String
  numDoc : Option String
  servicios : Option ServVal
  extra : List (String × FieldVal)
deriving DecidableEq, Repr

/-- A RIPS document: its list of users plus its remaining top-level fields. -/
structure Doc where
  usuarios : List Usuario
  extra : List (String × FieldVal)
deriving DecidableEq, Repr

def defaultUsuario : Usuario := { tipoDoc := none, numDoc := none, servicios := none, extra := [] }

/-! ### `tiene_lista_con_items` (line 16) -/

/-- True when the value is a dict having at least one list value with at
least one element. -/
def tiene_lista_con_items : Option ServVal → Bool
  | some (ServVal.dict entries) =>
      entries.any fun kv =>
        match kv.2 with
        | SVal.lst items => !items.isEmpty
        | _ => false
  | _ => false

/-! ### `ajustar_signo_servicios` (line 26) -/

/-- Effect of `item[campo] = item[campo] * signo` on a single dict entry:
only the entry whose key is `campo` and whose value is numeric changes. -/
def signMulEntry (campo : String) (signo : Int) (kv : String × FieldVal) :
    String × FieldVal :=
  if kv.1 = campo then
    match kv.2 with
    | FieldVal.num q => (kv.1, FieldVal.num (q * (signo : ℚ)))
    | v => (kv.1, v)
  else kv

/-- In-place update `item[campo] = item[campo] * signo` performed when the
key is present with a numeric value; all other entries are kept. -/
def signMulCampo (fields : List (String × FieldVal)) (campo : String) (signo : Int) :
    List (String × FieldVal) :=
  fields.map (signMulEntry campo signo)

/-- The two typical RIPS money fields are multiplied by the sign. -/
def ajustarCamposItem (fields : List (String × FieldVal)) (signo : Int) :
    List (String × FieldVal) :=
  signMulCampo (signMulCampo fields "vrServicio" signo) "valorPagoModerador" signo

def ajustarItem (it : ItemVal) (signo : Int) : ItemVal :=
  match it with
  | ItemVal.dict fields => ItemVal.dict (ajustarCamposItem fields signo)
  | v => v

def ajustarLista (v : SVal) (signo : Int) : SVal :=
  match v with
  | SVal.lst items => SVal.lst (items.map fun it => ajustarItem it signo)
  | v => v

/-- `ajustar_signo_servicios(servicios, signo)`.  The Python function mutates
its dict argument; here the updated dict is returned.  Calling it on a
non-dict raises `AttributeError` on `.values()`, modelled as `none`. -/
def ajustar_signo_servicios : ServVal → Int → Option ServVal
  | ServVal.dict entries, signo =>
      some (ServVal.dict (entries.map fun kv => (kv.1, ajustarLista kv.2 signo)))
  | ServVal.nondict _ _, _ => none

/-! ### `copiar_servicios_factura_a_nota` (line 42) -/

/-- `u.get("servicios", {})` as used when building the lookup maps. -/
def servBlockOf (u : Usuario) : ServVal := u.servicios.getD (ServVal.dict [])

/-- Python truthiness of a `servicios` value: a dict is truthy iff non-empty. -/
def ServVal.pyTruthy : ServVal → Bool
  | ServVal.dict entries => !entries.isEmpty
  | ServVal.nondict t _ => t

/-- Python `a or b` specialised to optional `servicios` values (`a` absent or
falsy falls through to `b`). -/
def pyOrServ (a b : Option ServVal) : Option ServVal :=
  match a with
  | some v => if v.pyTruthy then some v else b
  | none => b

/-- The composite-key index `inv_map_full`, built by one pass over the
invoice users; users with a null type or number are skipped (line 62). -/
def invMapFullAux : List ((String × String) × ServVal) → List Usuario →
    List ((String × String) × ServVal)
  | acc, [] => acc
  | acc, u :: rest =>
      invMapFullAux
        (match u.tipoDoc, u.numDoc with
         | some t, some n => alistSet acc (t, n) (servBlockOf u)
         | _, _ => acc)
        rest

def invMapFull (us : List Usuario) : List ((String × String) × ServVal) :=
  invMapFullAux [] us

/-- The by-number fallback index `inv_map_by_num` (same pass, same skip). -/
def invMapByNumAux : List (String × ServVal) → List Usuario → List (String × ServVal)
  | acc, [] => acc
  | acc, u :: rest =>
      invMapByNumAux
        (match u.tipoDoc, u.numDoc with
         | some _, some n => alistSet acc n (servBlockOf u)
         | _, _ => acc)
        rest

def invMapByNum (us : List Usuario) : List (String × ServVal) :=
  invMapByNumAux [] us

/-- Line 82: `inv_map_full.get(key_full) or inv_map_by_num.get(num)`. -/
def buscarOrigen (mf : List ((String × String) × ServVal)) (mn : List (String × ServVal))
    (tipo num : Option String) : Option ServVal :=
  pyOrServ
    (match tipo, num with
     | some t, some n => alistGet mf (t, n)
     | _, _ => none)
    (match num with
     | some n => alistGet mn n
     | none => none)

/-- How one target user fared in the reconcile loop. -/
inductive Outcome where
  | ya
  | sin
  | mod
deriving DecidableEq, Repr

/-- One iteration of the loop over the note users (lines 71-93).  The result
is the (possibly updated) user together with its outcome; `none` models the
uncaught `AttributeError` raised by `ajustar_signo_servicios` when the
matched source block is not a dict. -/
def pasoUsuario (mf : List ((String × String) × ServVal)) (mn : List (String × ServVal))
    (signo : Option Int) (u : Usuario) : Option (Usuario × Outcome) :=
  if tiene_lista_con_items u.servicios then some (u, Outcome.ya)
  else
    match buscarOrigen mf mn u.tipoDoc u.numDoc with
    | none => some (u, Outcome.sin)
    | some origen =>
      match signo with
      | some s =>
          if s = 1 ∨ s = -1 then
            (ajustar_signo_servicios origen s).map fun nuevo =>
              ({ u with servicios := some nuevo }, Outcome.mod)
          else some ({ u with servicios := some origen }, Outcome.mod)
      | none => some ({ u with servicios := some origen }, Outcome.mod)

def pasoNota (mf : List ((String × String) × ServVal)) (mn : List (String × ServVal))
    (signo : Option Int) : List Usuario → Option (List (Usuario × Outcome))
  | [] => some []
  | u :: rest =>
      match pasoUsuario mf mn signo u with
      | none => none
      | some p => (pasoNota mf mn signo rest).map fun ps => p :: ps

/-- The summary returned by the reconcile function (lines 95-101). -/
structure Resumen where
  total_usuarios_factura : Nat
  total_usuarios_nota : Nat
  usuarios_modificados : Nat
  usuarios_ya_tenian_servicios : Nat
  usuarios_sin_encontrar : List (Option String × Option String)
deriving DecidableEq, Repr

def esMod (p : Usuario × Outcome) : Bool :=
  match p.2 with
  | Outcome.mod => true
  | _ => false

def esYa (p : Usuario × Outcome) : Bool :=
  match p.2 with
  | Outcome.ya => true
  | _ => false

def esSin (p : Usuario × Outcome) : Bool :=
  match p.2 with
  | Outcome.sin => true
  | _ => false

/-- The outcome a first-pass result is headed for on a second reconcile
pass over the same source: unmatched entries stay unmatched, everything
else already has its services. -/
def segundaPasada (p : Usuario × Outcome) : Usuario × Outcome :=
  (p.1, match p.2 with
        | Outcome.sin => Outcome.sin
        | _ => Outcome.ya)

/-- `copiar_servicios_factura_a_nota(factura, nota, forzar_signo)`.  Copies
the `servicios` block of matching invoice users onto note users that lack
one, optionally forcing the sign, and returns the updated note together with
a summary.  `none` models the uncaught exception described at
`pasoUsuario`. -/
def copiar_servicios_factura_a_nota (factura nota : Doc) (forzarSigno : Option Int) :
    Option (Doc × Resumen) :=
  let mf := invMapFull factura.usuarios
  let mn := invMapByNum factura.usuarios
  (pasoNota mf mn forzarSigno nota.usuarios).map fun res =>
    ({ nota with usuarios := res.map fun p => p.1 },
     { total_usuarios_factura := factura.usuarios.length
       total_usuarios_nota := nota.usuarios.length
       usuarios_modificados := res.countP esMod
       usuarios_ya_tenian_servicios := res.countP esYa
       usuarios_sin_encontrar := (res.filter esSin).map fun p => (p.1.tipoDoc, p.1.numDoc) })

/-! ### `aplicar_plantilla_servicios` (line 292)

The Excel/CSV reading preamble of the Python function (lines 306-321) is
file-format plumbing; the row loop (lines 326-417) is modelled directly on
the list of already-parsed rows.  Rows come out of a pandas DataFrame, so
every cell is either missing (`NaN`), a number or a string. -/

/-- One cell of the template, as pandas delivers it. -/
inductive Cell where
  | na
  | intC (n : Int)
  | floatC (q : ℚ)
  | strC (s : String)
deriving DecidableEq, Repr

/-- One row of the template: the four mandatory columns. -/
structure Fila where
  idx_usuario : Cell
  tipo_servicio : Cell
  idx_item : Cell
  vrServicio_nota : Cell
deriving DecidableEq, Repr

/-- Leading and trailing blanks, which Python numeric parsing ignores. -/
def quitarEspacios (cs : List Char) : List Char :=
  ((cs.dropWhile fun c => c == ' ').reverse.dropWhile fun c => c == ' ').reverse

def parseDigitosAux : Nat → List Char → Option Nat
  | acc, [] => some acc
  | acc, c :: rest =>
      if c.isDigit then parseDigitosAux (acc * 10 + (c.toNat - 48)) rest else none

/-- A non-empty digit run, as a number. -/
def parseDigitos : List Char → Option Nat
  | [] => none
  | cs => parseDigitosAux 0 cs

/-- Python `int(-)` on a string: optional sign, then digits. -/
def pyIntDeCadena (s : String) : Option Int :=
  match quitarEspacios s.toList with
  | '-' :: rest => (parseDigitos rest).map fun n => -(n : Int)
  | '+' :: rest => (parseDigitos rest).map fun n => (n : Int)
  | cs => (parseDigitos cs).map fun n => (n : Int)

/-- Python `int(-)` on a cell: fails on `NaN` and on non-integer strings,
truncates floats toward zero. -/
def cellToInt : Cell → Option Int
  | Cell.na => none
  | Cell.intC n => some n
  | Cell.floatC q => some (Int.tdiv q.num (q.den : Int))
  | Cell.strC s => pyIntDeCadena s

/-- Python `str(-)` on a cell. -/
def cellToStr : Cell → String
  | Cell.na => "nan"
  | Cell.intC n => toString n
  | Cell.floatC q => toString q
  | Cell.strC s => s

/-- `pd.isna` on a cell. -/
def cellIsNa : Cell → Bool
  | Cell.na => true
  | _ => false

/-- The magnitude of a Python float literal: a digit run, optionally with a
dot separating an integer part and a fractional part (either may be empty,
but not both). -/
def parseFloatMag (cs : List Char) : Option ℚ :=
  let ent := cs.takeWhile fun c => c != '.'
  match cs.dropWhile fun c => c != '.' with
  | [] => (parseDigitos ent).map fun n => (n : ℚ)
  | _ :: frac =>
    match ent, frac with
    | [], [] => none
    | [], _ => (parseDigitos frac).map fun f => (f : ℚ) / (10 : ℚ) ^ frac.length
    | _, [] => (parseDigitos ent).map fun n => (n : ℚ)
    | _, _ =>
      match parseDigitos ent, parseDigitos frac with
      | some n, some f => some ((n : ℚ) + (f : ℚ) / (10 : ℚ) ^ frac.length)
      | _, _ => none

/-- Python `float(-)` on a string: optional sign, then a float magnitude. -/
def strToRat (s : String) : Option ℚ :=
  match quitarEspacios s.toList with
  | '-' :: rest => (parseFloatMag rest).map fun q => -q
  | '+' :: rest => parseFloatMag rest
  | cs => parseFloatMag cs

/-- Python `float(-)` on a cell.  The row loop only applies it to cells that
passed the `pd.isna` guard, so the `na` case is unreachable there. -/
def cellToFloat : Cell → Option ℚ
  | Cell.na => none
  | Cell.intC n => some (n : ℚ)
  | Cell.floatC q => some q
  | Cell.strC s => strToRat s

/-- The row-level errors appended to `errores`, one constructor per
`errores.append` site of the row loop, carrying the values interpolated into
the corresponding message. -/
inductive ErrMsg where
  | idxUsuarioInvalido (c : Cell)
  | idxItemInvalido (idxU : Int) (c : Cell)
  | idxUsuarioFueraRango (idxU : Int)
  | sinEstructuraNiFactura (idxU : Int) (tipoServ : String) (idxItem : Int)
  | usuarioNoEnFactura (idxU : Int)
  | sinLineaBaseFactura (idxU : Int) (tipoServ : String) (idxItem : Int)
  | noSePudoAsegurar (idxU : Int) (tipoServ : String) (idxItem : Int)
  | valorInvalido (idxU : Int) (tipoServ : String) (idxItem : Int) (c : Cell)
deriving DecidableEq, Repr

/-- Result of the structure-ensuring phase (lines 355-389): a row error, a
crash (uncaught exception), or the current `servicios` dict of the user
together with whether this phase wrote into it. -/
inductive StructResult where
  | err (e : ErrMsg)
  | crash
  | ok (wrote : Bool) (d : List (String × SVal))
deriving DecidableEq, Repr

/-- Lines 355-389: if the note lacks a list with position `idx_item` for
this category, copy the base line from the invoice, padding the note list
with empty dicts up to the index.  Crashes: `.get` on a non-dict invoice
`servicios` (line 374), a deep-negative index into the invoice list
(line 383) or into the empty rebuilt note list (line 388). -/
def asegurarEstructura (factura : Option Doc) (idxU idxItem : Int) (tipoServ : String)
    (d0 : List (String × SVal)) : StructResult :=
  let lista0 := alistGet d0 tipoServ
  let existe : Bool :=
    match lista0 with
    | some (SVal.lst items) => decide (idxItem < (items.length : Int))
    | _ => false
  if existe then StructResult.ok false d0
  else
    match factura with
    | none => StructResult.err (ErrMsg.sinEstructuraNiFactura idxU tipoServ idxItem)
    | some fac =>
      if 0 ≤ idxU ∧ idxU < (fac.usuarios.length : Int) then
        let ufac := fac.usuarios.getD idxU.toNat defaultUsuario
        match ufac.servicios.getD (ServVal.dict []) with
        | ServVal.nondict _ _ => StructResult.crash
        | ServVal.dict esfac =>
          match alistGet esfac tipoServ with
          | some (SVal.lst itemsfac) =>
            if idxItem < (itemsfac.length : Int) then
              match pyGetList itemsfac idxItem with
              | none => StructResult.crash
              | some itemBase =>
                let lista1 : List ItemVal :=
                  match lista0 with
                  | some (SVal.lst items) => items
                  | _ => []
                let lista2 :=
                  lista1 ++ List.replicate ((idxItem + 1 - (lista1.length : Int)).toNat)
                    (ItemVal.dict [])
                match pySetList lista2 idxItem itemBase with
                | none => StructResult.crash
                | some lista3 => StructResult.ok true (alistSet d0 tipoServ (SVal.lst lista3))
            else StructResult.err (ErrMsg.sinLineaBaseFactura idxU tipoServ idxItem)
          | _ => StructResult.err (ErrMsg.sinLineaBaseFactura idxU tipoServ idxItem)
      else StructResult.err (ErrMsg.usuarioNoEnFactura idxU)

/-- Result of the value-update phase (lines 391-415). -/
inductive ValorResult where
  | err (e : ErrMsg)
  | crash
  | ok (d : List (String × SVal))
deriving DecidableEq, Repr

/-- Lines 391-415: re-read the list, parse the desired value and set
`vrServicio` on the referenced item.  Crashes: a deep-negative index
(line 400) or assigning into a non-dict item (line 411). -/
def actualizarValor (idxU idxItem : Int) (tipoServ : String) (vr : Cell)
    (d1 : List (String × SVal)) : ValorResult :=
  match (alistGet d1 tipoServ).getD (SVal.lst []) with
  | SVal.lst items =>
    if idxItem < (items.length : Int) then
      match pyGetList items idxItem with
      | none => ValorResult.crash
      | some itemNota =>
        match cellToFloat vr with
        | none => ValorResult.err (ErrMsg.valorInvalido idxU tipoServ idxItem vr)
        | some valor =>
          match itemNota with
          | ItemVal.nondict _ => ValorResult.crash
          | ItemVal.dict fields =>
            match pySetList items idxItem
                (ItemVal.dict (alistSet fields "vrServicio" (FieldVal.num valor))) with
            | none => ValorResult.crash
            | some items2 => ValorResult.ok (alistSet d1 tipoServ (SVal.lst items2))
    else ValorResult.err (ErrMsg.noSePudoAsegurar idxU tipoServ idxItem)
  | SVal.nonlist _ => ValorResult.err (ErrMsg.noSePudoAsegurar idxU tipoServ idxItem)

/-- Reinstall the user's `servicios` dict into the note when any in-place
write happened for this row; otherwise the note is untouched. -/
def commitFila (nota : Doc) (iu : Nat) (u : Usuario) (written : Bool)
    (d : List (String × SVal)) : Doc :=
  if written then
    { nota with usuarios := nota.usuarios.set iu { u with servicios := some (ServVal.dict d) } }
  else nota

/-- One iteration of the row loop (lines 326-415).  Mirrors the Python
control flow: parse `idx_usuario`, stringify `tipo_servicio`, parse
`idx_item`, skip rows with a null desired value, range-check the user, make
sure `servicios` is a dict (replacing it by `{}` otherwise, line 351-353),
ensure the line exists, then parse and write the value. -/
def procesarFila (factura : Option Doc) (nota : Doc) (fila : Fila) :
    Option (Doc × List ErrMsg) :=
  match cellToInt fila.idx_usuario with
  | none => some (nota, [ErrMsg.idxUsuarioInvalido fila.idx_usuario])
  | some idxU =>
    let tipoServ := cellToStr fila.tipo_servicio
    match cellToInt fila.idx_item with
    | none => some (nota, [ErrMsg.idxItemInvalido idxU fila.idx_item])
    | some idxItem =>
      if cellIsNa fila.vrServicio_nota then some (nota, [])
      else if 0 ≤ idxU ∧ idxU < (nota.usuarios.length : Int) then
        let iu := idxU.toNat
        let usuario := nota.usuarios.getD iu defaultUsuario
        let esDict : Bool :=
          match usuario.servicios with
          | some (ServVal.dict _) => true
          | _ => false
        let d0 : List (String × SVal) :=
          match usuario.servicios with
          | some (ServVal.dict es) => es
          | _ => []
        match asegurarEstructura factura idxU idxItem tipoServ d0 with
        | StructResult.crash => none
        | StructResult.err e => some (commitFila nota iu usuario (!esDict) d0, [e])
        | StructResult.ok wrote d1 =>
          match actualizarValor idxU idxItem tipoServ fila.vrServicio_nota d1 with
          | ValorResult.crash => none
          | ValorResult.err e => some (commitFila nota iu usuario (!esDict || wrote) d1, [e])
          | ValorResult.ok d2 => some (commitFila nota iu usuario true d2, [])
      else some (nota, [ErrMsg.idxUsuarioFueraRango idxU])

def aplicarFilas (factura : Option Doc) : List Fila → Doc → List ErrMsg →
    Option (Doc × List ErrMsg)
  | [], nota, errs => some (nota, errs)
  | fila :: rest, nota, errs =>
      match procesarFila factura nota fila with
      | none => none
      | some (n2, es) => aplicarFilas factura rest n2 (errs ++ es)

/-- `aplicar_plantilla_servicios(nota, factura, plantilla)` on the parsed
rows: errors accumulate across rows, the note is threaded through; `none`
models an uncaught exception escaping the loop. -/
def aplicar_plantilla_servicios (nota : Doc) (factura : Option Doc) (filas : List Fila) :
    Option (Doc × List ErrMsg) :=
  aplicarFilas factura filas nota []

/-! ### Concrete documents used in the example theorems -/

/-- An invoice item with a value and a second marker field. -/
def itemBaseEj : ItemVal :=
  ItemVal.dict [("vrServicio", FieldVal.num 10), ("codeX", FieldVal.str "A")]

/-- Invoice for the failed-parse scenario: one user with one consultation. -/
def facEjC1 : Doc :=
  { usuarios :=
      [ { tipoDoc := some "CC", numDoc := some "1",
          servicios := some (ServVal.dict [("c", SVal.lst [itemBaseEj])]), extra := [] } ],
    extra := [] }

/-- Note for the failed-parse scenario: same user, no `servicios` at all. -/
def notaEjC1 : Doc :=
  { usuarios :=
      [ { tipoDoc := some "CC", numDoc := some "1", servicios := none, extra := [] } ],
    extra := [] }

/-- Row referencing that user and line, with an unparseable desired value. -/
def filaEjC1 : Fila :=
  { idx_usuario := Cell.intC 0, tipo_servicio := Cell.strC "c",
    idx_item := Cell.intC 0, vrServicio_nota := Cell.strC "abc" }

/-- What the note looks like after the failed-parse row: the base line copied
from the invoice has been installed even though the row errored. -/
def notaResC1 : Doc :=
  { usuarios :=
      [ { tipoDoc := some "CC", numDoc := some "1",
          servicios := some (ServVal.dict [("c", SVal.lst [itemBaseEj])]), extra := [] } ],
    extra := [] }

/-- Row with a null desired value and an unparseable user index. -/
def filaEjC2 : Fila :=
  { idx_usuario := Cell.strC "x", tipo_servicio := Cell.strC "c",
    idx_item := Cell.intC 0, vrServicio_nota := Cell.na }

/-- Note used by the C2 counterexample: a single plain user. -/
def notaEjC2 : Doc :=
  { usuarios :=
      [ { tipoDoc := some "CC", numDoc := some "1", servicios := none, extra := [] } ],
    extra := [] }

/-- Invoice with two users sharing a document number: the first has an empty
(falsy) `servicios` dict, the second a non-empty one. -/
def facEjC3 : Doc :=
  { usuarios :=
      [ { tipoDoc := some "CC", numDoc := some "1",
          servicios := some (ServVal.dict []), extra := [] },
        { tipoDoc := some "TI", numDoc := some "1",
          servicios := some (ServVal.dict [("c", SVal.lst [itemBaseEj])]), extra := [] } ],
    extra := [] }

/-- The non-empty block of the second C3 user, returned by the matcher. -/
def bloqueTIEjC3 : ServVal := ServVal.dict [("c", SVal.lst [itemBaseEj])]

/-- A one-entry composite index used by the C3 amended witness. -/
def mapEjC3 : List ((String × String) × ServVal) :=
  [(("CC", "1"), ServVal.dict [("c", SVal.lst [])])]

/-- Invoice whose only user has a truthy `servicios` dict with no items. -/
def facEjC4 : Doc :=
  { usuarios :=
      [ { tipoDoc := some "CC", numDoc := some "1",
          servicios := some (ServVal.dict [("c", SVal.lst [])]), extra := [] } ],
    extra := [] }

/-- Note for the C4 counterexample: same user, no `servicios`. -/
def notaEjC4 : Doc :=
  { usuarios :=
      [ { tipoDoc := some "CC", numDoc := some "1", servicios := none, extra := [] } ],
    extra := [] }

/-- Invoice for the C4 witness: its user has an item-bearing block. -/
def facEjC4w : Doc :=
  { usuarios :=
      [ { tipoDoc := some "CC", numDoc := some "2",
          servicios := some (ServVal.dict [("c", SVal.lst [itemBaseEj])]), extra := [] } ],
    extra := [] }

/-- Note for the C4 witness before the first run. -/
def notaEjC4w : Doc :=
  { usuarios :=
      [ { tipoDoc := some "CC", numDoc := some "2", servicios := none, extra := [] } ],
    extra := [] }

/-- Note for the C4 witness after the first run. -/
def notaEjC4w1 : Doc :=
  { usuarios :=
      [ { tipoDoc := some "CC", numDoc := some "2",
          servicios := some (ServVal.dict [("c", SVal.lst [itemBaseEj])]), extra := [] } ],
    extra := [] }

/-- Summary of the first C4-witness run. -/
def resEjC4w1 : Resumen :=
  { total_usuarios_factura := 1, total_usuarios_nota := 1, usuarios_modificados := 1,
    usuarios_ya_tenian_servicios := 0, usuarios_sin_encontrar := [] }

/-- Note for the C6 scenario: one user, one consultation line with a value
and a marker field, plus untouched extra fields. -/
def notaEjC6 : Doc :=
  { usuarios :=
      [ { tipoDoc := some "CC", numDoc := some "1",
          servicios := some (ServVal.dict
            [("consultas", SVal.lst [ItemVal.dict
              [("vrServicio", FieldVal.num 50), ("codeX", FieldVal.str "A")]])]),
          extra := [("nombre", FieldVal.str "Z")] } ],
    extra := [("numNota", FieldVal.str "N1")] }

/-- Edit row of the C6 scenario. -/
def filaEjC6 : Fila :=
  { idx_usuario := Cell.intC 0, tipo_servicio := Cell.strC "consultas",
    idx_item := Cell.intC 0, vrServicio_nota := Cell.intC 75 }

/-- Note for the C9 scenario: a two-line category list. -/
def notaEjC9 : Doc :=
  { usuarios :=
      [ { tipoDoc := some "CC", numDoc := some "1",
          servicios := some (ServVal.dict
            [("c", SVal.lst [ItemVal.dict [("vrServicio", FieldVal.num 1)],
                             ItemVal.dict [("vrServicio", FieldVal.num 2)]])]),
          extra := [] } ],
    extra := [] }

/-- Edit row of the C9 scenario: line index -1. -/
def filaEjC9 : Fila :=
  { idx_usuario := Cell.intC 0, tipo_servicio := Cell.strC "c",
    idx_item := Cell.intC (-1), vrServicio_nota := Cell.intC 99 }

/-- Invoice and note for the C8 witness. -/
def facEjC8 : Doc :=
  { usuarios :=
      [ { tipoDoc := some "CC", numDoc := some "1",
          servicios := some (ServVal.dict [("c", SVal.lst [itemBaseEj])]), extra := [] } ],
    extra := [] }

def notaEjC8 : Doc :=
  { usuarios :=
      [ { tipoDoc := some "CC", numDoc := some "1", servicios := none, extra := [] },
        { tipoDoc := some "TI", numDoc := some "9", servicios := none, extra := [] } ],
    extra := [] }

/-- Note and row for the C1 amended witness: the referenced line already
exists, so the failed parse leaves the note untouched. -/
def notaEjC1w : Doc :=
  { usuarios :=
      [ { tipoDoc := some "CC", numDoc := some "1",
          servicios := some (ServVal.dict [("c", SVal.lst [itemBaseEj])]), extra := [] } ],
    extra := [] }

/-- Note of the C8 witness after the run: the first user got the invoice
block, the second was not found. -/
def notaResC8 : Doc :=
  { usuarios :=
      [ { tipoDoc := some "CC", numDoc := some "1",
          servicios := some (ServVal.dict [("c", SVal.lst [itemBaseEj])]), extra := [] },
        { tipoDoc := some "TI", numDoc := some "9", servicios := none, extra := [] } ],
    extra := [] }

/-- Summary of the C8 witness run. -/
def resEjC8 : Resumen :=
  { total_usuarios_factura := 1, total_usuarios_nota := 2, usuarios_modificados := 1,
    usuarios_ya_tenian_servicios := 0, usuarios_sin_encontrar := [(some "TI", some "9")] }

/-- Result of the C6 scenario: only `vrServicio` of the referenced line
changed. -/
def notaResC6 : Doc :=
  { usuarios :=
      [ { tipoDoc := some "CC", numDoc := some "1",
          servicios := some (ServVal.dict
            [("consultas", SVal.lst [ItemVal.dict
              [("vrServicio", FieldVal.num 75), ("codeX", FieldVal.str "A")]])]),
          extra := [("nombre", FieldVal.str "Z")] } ],
    extra := [("numNota", FieldVal.str "N1")] }

/-- Result of the C9 scenario: the last line of the list was updated. -/
def notaResC9 : Doc :=
  { usuarios :=
      [ { tipoDoc := some "CC", numDoc := some "1",
          servicios := some (ServVal.dict
            [("c", SVal.lst [ItemVal.dict [("vrServicio", FieldVal.num 1)],
                             ItemVal.dict [("vrServicio", FieldVal.num 99)]])]),
          extra := [] } ],
    extra := [] }

/-! ## Helper lemmas about the dict and list models -/

theorem alistGet_alistSet_self {κ α : Type} [DecidableEq κ] (l : List (κ × α)) (k : κ) (v : α) :
    alistGet (alistSet l k v) k = some v := by
  induction l with
  | nil => simp [alistGet, alistSet]
  | cons kv rest ih =>
    obtain ⟨k', v'⟩ := kv
    by_cases h : k' = k
    · simp [alistGet, alistSet, h]
    · simp [alistGet, alistSet, h, ih]

theorem alistGet_alistSet_ne {κ α : Type} [DecidableEq κ] (l : List (κ × α)) (k k₂ : κ) (v : α)
    (h : k₂ ≠ k) : alistGet (alistSet l k v) k₂ = alistGet l k₂ := by
  have h' : ¬ k = k₂ := fun e => h e.symm
  induction l with
  | nil => simp [alistGet, alistSet, h']
  | cons kv rest ih =>
    obtain ⟨k', v'⟩ := kv
    by_cases hk : k' = k
    · subst hk
      simp [alistGet, alistSet, h']
    · simp [alistGet, alistSet, hk, ih]

theorem alistGet_alistSet_cases {κ α : Type} [DecidableEq κ] (l : List (κ × α)) (k k₂ : κ)
    (v w : α) (h : alistGet (alistSet l k v) k₂ = some w) :
    (k₂ = k ∧ w = v) ∨ alistGet l k₂ = some w := by
  by_cases hk : k₂ = k
  · subst hk
    rw [alistGet_alistSet_self] at h
    exact Or.inl ⟨rfl, (Option.some_injective _ h).symm⟩
  · rw [alistGet_alistSet_ne l k k₂ v hk] at h
    exact Or.inr h

/-! ## C5: sign normalization -/

theorem signMulEntry_nonNum (campo : String) (signo : Int) (k : String) (v : FieldVal)
    (hv : ∀ q : ℚ, v ≠ FieldVal.num q) : signMulEntry campo signo (k, v) = (k, v) := by
  cases v with
  | num q => exact absurd rfl (hv q)
  | str s => simp [signMulEntry]
  | null => simp [signMulEntry]
  | other t => simp [signMulEntry]

theorem signMulEntry_invol (kv : String × FieldVal) :
    signMulEntry "valorPagoModerador" (-1)
      (signMulEntry "vrServicio" (-1)
        (signMulEntry "valorPagoModerador" (-1) (signMulEntry "vrServicio" (-1) kv))) = kv := by
  obtain ⟨k, v⟩ := kv
  by_cases h1 : k = "vrServicio"
  · subst h1
    cases v with
    | num q => simp [signMulEntry]
    | str s => simp [signMulEntry]
    | null => simp [signMulEntry]
    | other t => simp [signMulEntry]
  · by_cases h2 : k = "valorPagoModerador"
    · subst h2
      cases v with
      | num q => simp [signMulEntry, h1]
      | str s => simp [signMulEntry, h1]
      | null => simp [signMulEntry, h1]
      | other t => simp [signMulEntry, h1]
    · simp [signMulEntry, h1, h2]

theorem ajustarCamposItem_invol (fields : List (String × FieldVal)) :
    ajustarCamposItem (ajustarCamposItem fields (-1)) (-1) = fields := by
  simp only [ajustarCamposItem, signMulCampo, List.map_map]
  have h : ∀ kv : String × FieldVal,
      (signMulEntry "valorPagoModerador" (-1) ∘ signMulEntry "vrServicio" (-1) ∘
        signMulEntry "valorPagoModerador" (-1) ∘ signMulEntry "vrServicio" (-1)) kv = kv :=
    fun kv => signMulEntry_invol kv
  calc fields.map (signMulEntry "valorPagoModerador" (-1) ∘ signMulEntry "vrServicio" (-1) ∘
        signMulEntry "valorPagoModerador" (-1) ∘ signMulEntry "vrServicio" (-1))
      = fields.map id := List.map_congr_left fun kv _ => h kv
    _ = fields := List.map_id fields

theorem ajustarItem_invol (it : ItemVal) :
    ajustarItem (ajustarItem it (-1)) (-1) = it := by
  cases it with
  | dict fields => simp [ajustarItem, ajustarCamposItem_invol]
  | nondict t => rfl

theorem ajustarLista_invol (v : SVal) :
    ajustarLista (ajustarLista v (-1)) (-1) = v := by
  cases v with
  | lst items =>
    simp only [ajustarLista, List.map_map]
    have h : items.map ((fun it => ajustarItem it (-1)) ∘ fun it => ajustarItem it (-1))
        = items.map id := List.map_congr_left fun it _ => ajustarItem_invol it
    rw [h, List.map_id]
  | nonlist t => rfl

/-- C5: with polarity -1 sign normalization is an involution on service
dicts, and with either polarity it never changes a field whose value is not
numeric; non-dict items are always left untouched. -/
theorem claim_C5_sign_normalization :
    (∀ entries : List (String × SVal),
       (ajustar_signo_servicios (ServVal.dict entries) (-1)).bind
         (fun v => ajustar_signo_servicios v (-1)) = some (ServVal.dict entries))
    ∧ (∀ (fields : List (String × FieldVal)) (signo : Int) (i : Nat) (k : String) (v : FieldVal),
         fields.get? i = some (k, v) → (∀ q : ℚ, v ≠ FieldVal.num q) →
         (ajustarCamposItem fields signo).get? i = some (k, v))
    ∧ (∀ (t : Nat) (signo : Int), ajustarItem (ItemVal.nondict t) signo = ItemVal.nondict t) := by
  refine ⟨?_, ?_, fun t signo => rfl⟩
  · intro entries
    simp only [ajustar_signo_servicios, Option.bind_some, Option.some_bind, List.map_map,
      Option.some.injEq, ServVal.dict.injEq]
    have h : entries.map ((fun kv : String × SVal => (kv.1, ajustarLista kv.2 (-1))) ∘
        fun kv : String × SVal => (kv.1, ajustarLista kv.2 (-1))) = entries.map id :=
      List.map_congr_left fun kv _ => by
        simp only [Function.comp_apply, id_eq, ajustarLista_invol]
    rw [h, List.map_id]
  · intro fields signo i k v hi hv
    simp only [ajustarCamposItem, signMulCampo, List.map_map, List.get?_map, hi,
      Option.map_some', Function.comp_apply]
    rw [signMulEntry_nonNum "vrServicio" signo k v hv,
      signMulEntry_nonNum "valorPagoModerador" signo k v hv]

/-! ## C3: the user matcher -/

/-- C3 counterexample: the composite key ("CC","1") is present in the
composite index, bound to the first user's empty (hence falsy) block, yet
the matcher returns the second user's fallback block: the `or` of line 82
falls through on a falsy composite hit. -/
theorem claim_C3_counterexample :
    alistGet (invMapFull facEjC3.usuarios) ("CC", "1") = some (ServVal.dict [])
    ∧ buscarOrigen (invMapFull facEjC3.usuarios) (invMapByNum facEjC3.usuarios)
        (some "CC") (some "1") = some bloqueTIEjC3
    ∧ bloqueTIEjC3 ≠ ServVal.dict [] := by
  refine ⟨by decide, by decide, by decide⟩

/-- C3 amended: a composite-key hit takes precedence whenever the indexed
block is truthy; only an absent composite key or a falsy composite block
lets the by-number fallback be consulted. -/
theorem claim_C3_amended_truthy_precedence :
    ∀ (mf : List ((String × String) × ServVal)) (mn : List (String × ServVal))
      (t n : String) (v : ServVal),
      alistGet mf (t, n) = some v → v.pyTruthy = true →
      buscarOrigen mf mn (some t) (some n) = some v := by
  intro mf mn t n v hget ht
  simp [buscarOrigen, pyOrServ, hget, ht]

theorem claim_C3_amended_witness :
    buscarOrigen mapEjC3 [] (some "CC") (some "1") = some (ServVal.dict [("c", SVal.lst [])]) :=
  claim_C3_amended_truthy_precedence mapEjC3 [] "CC" "1" (ServVal.dict [("c", SVal.lst [])])
    (by decide) (by decide)

/-! ## C2: rows with a null desired value -/

/-- C2 counterexample: a row whose desired value is null but whose
`idx_usuario` does not parse as an integer contributes a row error, because
the index parses run before the null check of line 342. -/
theorem claim_C2_counterexample :
    aplicar_plantilla_servicios notaEjC2 (some facEjC1) [filaEjC2]
      = some (notaEjC2, [ErrMsg.idxUsuarioInvalido (Cell.strC "x")])
    ∧ ([ErrMsg.idxUsuarioInvalido (Cell.strC "x")] : List ErrMsg) ≠ [] := by
  refine ⟨by decide, by decide⟩

/-- C2 amended: a null-desired-value row never mutates the note; it is a
complete no-op when both indices parse as integers, while an unparseable
`idx_usuario` or `idx_item` still contributes its parse error. -/
theorem claim_C2_amended_null_value_rows :
    ∀ (factura : Option Doc) (nota : Doc) (fila : Fila),
      cellIsNa fila.vrServicio_nota = true →
      procesarFila factura nota fila =
        some (nota,
          match cellToInt fila.idx_usuario with
          | none => [ErrMsg.idxUsuarioInvalido fila.idx_usuario]
          | some i =>
            match cellToInt fila.idx_item with
            | none => [ErrMsg.idxItemInvalido i fila.idx_item]
            | some _ => []) := by
  intro factura nota fila hna
  unfold procesarFila
  cases hu : cellToInt fila.idx_usuario with
  | none => rfl
  | some i =>
    cases hi : cellToInt fila.idx_item with
    | none => rfl
    | some j => simp [hna]

theorem claim_C2_amended_witness :
    procesarFila (some facEjC1) notaEjC2 filaEjC2
      = some (notaEjC2, [ErrMsg.idxUsuarioInvalido (Cell.strC "x")]) := by
  have h := claim_C2_amended_null_value_rows (some facEjC1) notaEjC2 filaEjC2 (by decide)
  exact h.trans (by decide)

/-! ## C1: rows whose desired value fails numeric parsing -/

/-- Python indexing lemmas used when reasoning about the row loop. -/
theorem pyGetList_nonneg {α : Type} (l : List α) (j : Int) (h0 : 0 ≤ j)
    (hl : j < (l.length : Int)) : pyGetList l j = l.get? j.toNat := by
  simp [pyGetList, pyIndex, h0, hl]

theorem pyGetList_neg {α : Type} (l : List α) (j : Int) (hneg : j < 0)
    (h0 : 0 ≤ j + (l.length : Int)) :
    pyGetList l j = l.get? (j + (l.length : Int)).toNat := by
  simp [pyGetList, pyIndex, not_le.mpr hneg, h0]

theorem pySetList_nonneg {α : Type} (l : List α) (j : Int) (v : α) (h0 : 0 ≤ j)
    (hl : j < (l.length : Int)) : pySetList l j v = some (l.set j.toNat v) := by
  simp [pySetList, pyIndex, h0, hl]

theorem pySetList_neg {α : Type} (l : List α) (j : Int) (v : α) (hneg : j < 0)
    (h0 : 0 ≤ j + (l.length : Int)) :
    pySetList l j v = some (l.set (j + (l.length : Int)).toNat v) := by
  simp [pySetList, pyIndex, not_le.mpr hneg, h0]

/-- C1 counterexample: the desired value "abc" fails numeric parsing and the
row errors, yet the base line synthesized from the invoice remains installed
in the note, which therefore changed. -/
theorem claim_C1_counterexample :
    aplicar_plantilla_servicios notaEjC1 (some facEjC1) [filaEjC1]
      = some (notaResC1, [ErrMsg.valorInvalido 0 "c" 0 (Cell.strC "abc")])
    ∧ notaResC1 ≠ notaEjC1 := by
  refine ⟨by decide, by decide⟩

/-- C1 amended: a failing numeric parse always yields the `valorInvalido`
row error and never updates any `vrServicio`; when the referenced category
line already exists in the note (dict `servicios`, list present, index in
range) the note is left completely unchanged.  (When the line had to be
synthesized from the invoice, the synthesized line and padding remain
installed, as the counterexample shows.) -/
theorem claim_C1_amended_parse_error :
    ∀ (factura : Option Doc) (nota : Doc) (fila : Fila) (i j : Int) (u : Usuario)
      (es : List (String × SVal)) (items : List ItemVal),
      cellToInt fila.idx_usuario = some i →
      cellToInt fila.idx_item = some j →
      cellIsNa fila.vrServicio_nota = false →
      0 ≤ i → i < (nota.usuarios.length : Int) →
      nota.usuarios.get? i.toNat = some u →
      u.servicios = some (ServVal.dict es) →
      alistGet es (cellToStr fila.tipo_servicio) = some (SVal.lst items) →
      0 ≤ j → j < (items.length : Int) →
      cellToFloat fila.vrServicio_nota = none →
      procesarFila factura nota fila =
        some (nota, [ErrMsg.valorInvalido i (cellToStr fila.tipo_servicio) j
          fila.vrServicio_nota]) := by
  intro factura nota fila i j u es items hU hI hna h0i hilen hu hs hl h0j hjlen hf
  have hjt : j.toNat < items.length := by omega
  obtain ⟨it, hit⟩ : ∃ it, items.get? j.toNat = some it :=
    ⟨items.get ⟨j.toNat, hjt⟩, List.get?_eq_get hjt⟩
  have hase : asegurarEstructura factura i j (cellToStr fila.tipo_servicio) es
      = StructResult.ok false es := by
    unfold asegurarEstructura
    rw [hl]
    simp [hjlen]
  have hval : actualizarValor i j (cellToStr fila.tipo_servicio) fila.vrServicio_nota es
      = ValorResult.err (ErrMsg.valorInvalido i (cellToStr fila.tipo_servicio) j
          fila.vrServicio_nota) := by
    unfold actualizarValor
    rw [hl]
    simp only [Option.getD_some]
    rw [if_pos hjlen, pyGetList_nonneg items j h0j hjlen, hit, hf]
  unfold procesarFila
  rw [hU, hI, hna]
  simp only [Bool.false_eq_true, if_false]
  rw [if_pos ⟨h0i, hilen⟩]
  simp only [List.getD_eq_getD_get?, hu, Option.getD_some, hs, hase, hval]
  simp [commitFila]

theorem claim_C1_amended_witness :
    procesarFila (some facEjC1) notaEjC1w filaEjC1
      = some (notaEjC1w, [ErrMsg.valorInvalido 0 "c" 0 (Cell.strC "abc")]) :=
  claim_C1_amended_parse_error (some facEjC1) notaEjC1w filaEjC1 0 0
    { tipoDoc := some "CC", numDoc := some "1",
      servicios := some (ServVal.dict [("c", SVal.lst [itemBaseEj])]), extra := [] }
    [("c", SVal.lst [itemBaseEj])] [itemBaseEj]
    rfl rfl rfl (by decide) (by decide) rfl rfl rfl (by decide) (by decide) (by decide)

/-- Concrete run of C5: a two-field item flipped twice comes back, and a
string field is untouched by either polarity. -/
theorem claim_C5_witness :
    (ajustar_signo_servicios
        (ServVal.dict [("c", SVal.lst [ItemVal.dict
          [("vrServicio", FieldVal.num 5), ("x", FieldVal.str "A")]])]) (-1)).bind
      (fun v => ajustar_signo_servicios v (-1))
      = some (ServVal.dict [("c", SVal.lst [ItemVal.dict
          [("vrServicio", FieldVal.num 5), ("x", FieldVal.str "A")]])])
    ∧ (ajustarCamposItem [("x", FieldVal.str "A")] 1).get? 0 = some ("x", FieldVal.str "A") :=
  ⟨claim_C5_sign_normalization.1 _,
   claim_C5_sign_normalization.2.1 [("x", FieldVal.str "A")] 1 0 "x" (FieldVal.str "A") rfl
     (fun q h => by cases h)⟩

/-! ## C8: the summary partitions the note users -/

theorem pasoNota_length (mf : List ((String × String) × ServVal)) (mn : List (String × ServVal))
    (signo : Option Int) :
    ∀ (us : List Usuario) (res : List (Usuario × Outcome)),
      pasoNota mf mn signo us = some res → res.length = us.length := by
  intro us
  induction us with
  | nil =>
    intro res h
    simp only [pasoNota, Option.some.injEq] at h
    subst h
    rfl
  | cons u rest ih =>
    intro res h
    simp only [pasoNota] at h
    cases hp : pasoUsuario mf mn signo u with
    | none => rw [hp] at h; cases h
    | some p =>
      rw [hp] at h
      cases hr : pasoNota mf mn signo rest with
      | none => rw [hr] at h; cases h
      | some ps =>
        rw [hr] at h
        simp only [Option.map_some', Option.some.injEq] at h
        subst h
        simp [ih ps hr]

theorem outcomes_particion (res : List (Usuario × Outcome)) :
    res.countP esMod + res.countP esYa + (res.filter esSin).length = res.length := by
  induction res with
  | nil => rfl
  | cons p rest ih =>
    cases ho : p.2 <;>
      simp [List.countP_cons, List.filter_cons, esMod, esYa, esSin, ho] <;> omega

/-- C8: after every reconcile call the summary partitions the note users
exactly: the note total equals modified plus already-had plus unmatched. -/
theorem claim_C8_resumen_particion :
    ∀ (f n : Doc) (s : Option Int) (n2 : Doc) (r : Resumen),
      copiar_servicios_factura_a_nota f n s = some (n2, r) →
      r.total_usuarios_nota
        = r.usuarios_modificados + r.usuarios_ya_tenian_servicios
          + r.usuarios_sin_encontrar.length := by
  intro f n s n2 r h
  simp only [copiar_servicios_factura_a_nota] at h
  cases hp : pasoNota (invMapFull f.usuarios) (invMapByNum f.usuarios) s n.usuarios with
  | none => rw [hp] at h; cases h
  | some res =>
    rw [hp] at h
    simp only [Option.map_some', Option.some.injEq, Prod.mk.injEq] at h
    obtain ⟨h1, h2⟩ := h
    subst h2
    simp only [List.length_map]
    rw [← pasoNota_length (invMapFull f.usuarios) (invMapByNum f.usuarios) s n.usuarios res hp]
    exact (outcomes_particion res).symm

theorem claim_C8_witness :
    resEjC8.total_usuarios_nota
      = resEjC8.usuarios_modificados + resEjC8.usuarios_ya_tenian_servicios
        + resEjC8.usuarios_sin_encontrar.length :=
  claim_C8_resumen_particion facEjC8 notaEjC8 none notaResC8 resEjC8 (by decide)

/-! ## C10: source users with a null key -/

theorem invMapFullAux_filtrado (us : List Usuario) :
    ∀ acc, invMapFullAux acc us
      = invMapFullAux acc (us.filter fun u => u.tipoDoc.isSome && u.numDoc.isSome) := by
  induction us with
  | nil => intro acc; rfl
  | cons u rest ih =>
    intro acc
    cases ht : u.tipoDoc <;> cases hn : u.numDoc <;>
      simp [invMapFullAux, List.filter_cons, ht, hn, ih]

theorem invMapByNumAux_filtrado (us : List Usuario) :
    ∀ acc, invMapByNumAux acc us
      = invMapByNumAux acc (us.filter fun u => u.tipoDoc.isSome && u.numDoc.isSome) := by
  induction us with
  | nil => intro acc; rfl
  | cons u rest ih =>
    intro acc
    cases ht : u.tipoDoc <;> cases hn : u.numDoc <;>
      simp [invMapByNumAux, List.filter_cons, ht, hn, ih]

/-- C10: invoice users whose type or number is null contribute to neither
lookup index (so no note user can match them), yet the summary's invoice
total still counts every invoice user. -/
theorem claim_C10_claves_nulas :
    ∀ (f n : Doc) (s : Option Int),
      (invMapFull f.usuarios
          = invMapFull (f.usuarios.filter fun u => u.tipoDoc.isSome && u.numDoc.isSome)
        ∧ invMapByNum f.usuarios
          = invMapByNum (f.usuarios.filter fun u => u.tipoDoc.isSome && u.numDoc.isSome))
      ∧ (copiar_servicios_factura_a_nota f n s).map (fun p => p.2.total_usuarios_factura)
          = (copiar_servicios_factura_a_nota f n s).map (fun _ => f.usuarios.length) := by
  intro f n s
  refine ⟨⟨invMapFullAux_filtrado f.usuarios [], invMapByNumAux_filtrado f.usuarios []⟩, ?_⟩
  simp only [copiar_servicios_factura_a_nota]
  cases pasoNota (invMapFull f.usuarios) (invMapByNum f.usuarios) s n.usuarios <;> simp

/-! ## C6 and C9: successful updates of an existing line -/

theorem pyIndex_nonneg (len : Nat) (i : Int) (h0 : 0 ≤ i) (hl : i < (len : Int)) :
    pyIndex len i = some i.toNat := by
  simp [pyIndex, h0, hl]

theorem pyIndex_neg (len : Nat) (i : Int) (hneg : i < 0) (h0 : 0 ≤ i + (len : Int)) :
    pyIndex len i = some (i + (len : Int)).toNat := by
  simp [pyIndex, not_le.mpr hneg, h0]

/-- The common successful path of the row loop: the referenced user exists,
its `servicios` is a dict, the category holds a list, the (possibly
negative) index resolves inside it to a dict item, and the desired value
parses.  Only `vrServicio` of that item is rewritten. -/
theorem procesarFila_linea_existente :
    ∀ (factura : Option Doc) (nota : Doc) (fila : Fila) (i j : Int) (jn : Nat) (u : Usuario)
      (es : List (String × SVal)) (items : List ItemVal)
      (fields : List (String × FieldVal)) (q : ℚ),
      cellToInt fila.idx_usuario = some i →
      cellToInt fila.idx_item = some j →
      cellIsNa fila.vrServicio_nota = false →
      0 ≤ i → i < (nota.usuarios.length : Int) →
      nota.usuarios.get? i.toNat = some u →
      u.servicios = some (ServVal.dict es) →
      alistGet es (cellToStr fila.tipo_servicio) = some (SVal.lst items) →
      j < (items.length : Int) →
      pyIndex items.length j = some jn →
      items.get? jn = some (ItemVal.dict fields) →
      cellToFloat fila.vrServicio_nota = some q →
      procesarFila factura nota fila =
        some
          ({ nota with
              usuarios := nota.usuarios.set i.toNat
                  ({ u with
                      servicios := some (ServVal.dict (alistSet es
                          (cellToStr fila.tipo_servicio) (SVal.lst (items.set jn (ItemVal.dict
                            (alistSet fields "vrServicio" (FieldVal.num q))))))) }) },
            []) := by
  intro factura nota fila i j jn u es items fields q hU hI hna h0i hilen hu hs hl hjlen hpy hit hq
  have hase : asegurarEstructura factura i j (cellToStr fila.tipo_servicio) es
      = StructResult.ok false es := by
    unfold asegurarEstructura
    rw [hl]
    simp [hjlen]
  have hval : actualizarValor i j (cellToStr fila.tipo_servicio) fila.vrServicio_nota es
      = ValorResult.ok (alistSet es (cellToStr fila.tipo_servicio)
          (SVal.lst (items.set jn (ItemVal.dict
            (alistSet fields "vrServicio" (FieldVal.num q)))))) := by
    unfold actualizarValor
    rw [hl]
    simp only [Option.getD_some]
    rw [if_pos hjlen]
    simp only [pyGetList, pySetList, hpy, Option.some_bind, Option.map_some', hit, hq]
  unfold procesarFila
  rw [hU, hI, hna]
  simp only [Bool.false_eq_true, if_false]
  rw [if_pos ⟨h0i, hilen⟩]
  simp only [List.getD_eq_getD_get?, hu, Option.getD_some, hs, hase, hval]
  simp [commitFila]

/-- C6: a row whose referenced beneficiary, category and line all already
exist updates only that line's `vrServicio`; the other fields of the line,
the other lines, the other categories, the other users and the rest of the
note are preserved. -/
theorem claim_C6_solo_vrServicio :
    ∀ (factura : Option Doc) (nota : Doc) (fila : Fila) (i j : Int) (u : Usuario)
      (es : List (String × SVal)) (items : List ItemVal)
      (fields : List (String × FieldVal)) (q : ℚ),
      cellToInt fila.idx_usuario = some i →
      cellToInt fila.idx_item = some j →
      cellIsNa fila.vrServicio_nota = false →
      0 ≤ i → i < (nota.usuarios.length : Int) →
      nota.usuarios.get? i.toNat = some u →
      u.servicios = some (ServVal.dict es) →
      alistGet es (cellToStr fila.tipo_servicio) = some (SVal.lst items) →
      0 ≤ j → j < (items.length : Int) →
      items.get? j.toNat = some (ItemVal.dict fields) →
      cellToFloat fila.vrServicio_nota = some q →
      (let camposNuevos := alistSet fields "vrServicio" (FieldVal.num q)
       let usuarioNuevo : Usuario := { u with servicios := some (ServVal.dict
         (alistSet es (cellToStr fila.tipo_servicio)
           (SVal.lst (items.set j.toNat (ItemVal.dict camposNuevos))))) }
       procesarFila factura nota fila =
         some ({ nota with usuarios := nota.usuarios.set i.toNat usuarioNuevo }, [])
       ∧ (∀ m : Nat, m ≠ i.toNat →
            (nota.usuarios.set i.toNat usuarioNuevo).get? m = nota.usuarios.get? m)
       ∧ (∀ t : String, t ≠ cellToStr fila.tipo_servicio →
            alistGet (alistSet es (cellToStr fila.tipo_servicio)
              (SVal.lst (items.set j.toNat (ItemVal.dict camposNuevos)))) t = alistGet es t)
       ∧ (∀ m : Nat, m ≠ j.toNat →
            (items.set j.toNat (ItemVal.dict camposNuevos)).get? m = items.get? m)
       ∧ (∀ k : String, k ≠ "vrServicio" → alistGet camposNuevos k = alistGet fields k)
       ∧ alistGet camposNuevos "vrServicio" = some (FieldVal.num q)
       ∧ usuarioNuevo.tipoDoc = u.tipoDoc ∧ usuarioNuevo.numDoc = u.numDoc
       ∧ usuarioNuevo.extra = u.extra) := by
  intro factura nota fila i j u es items fields q hU hI hna h0i hilen hu hs hl h0j hjlen hit hq
  refine ⟨procesarFila_linea_existente factura nota fila i j j.toNat u es items fields q
      hU hI hna h0i hilen hu hs hl hjlen (pyIndex_nonneg items.length j h0j hjlen) hit hq,
    ?_, ?_, ?_, ?_, ?_, rfl, rfl, rfl⟩
  · intro m hm
    exact List.get?_set_ne _ _ (fun e => hm e.symm)
  · intro t ht
    exact alistGet_alistSet_ne es (cellToStr fila.tipo_servicio) t _ ht
  · intro m hm
    exact List.get?_set_ne _ _ (fun e => hm e.symm)
  · intro k hk
    exact alistGet_alistSet_ne fields "vrServicio" k _ hk
  · exact alistGet_alistSet_self fields "vrServicio" (FieldVal.num q)

theorem claim_C6_witness :
    procesarFila none notaEjC6 filaEjC6 = some (notaResC6, []) := by
  have h := (claim_C6_solo_vrServicio none notaEjC6 filaEjC6 0 0
    { tipoDoc := some "CC", numDoc := some "1",
      servicios := some (ServVal.dict
        [("consultas", SVal.lst [ItemVal.dict
          [("vrServicio", FieldVal.num 50), ("codeX", FieldVal.str "A")]])]),
      extra := [("nombre", FieldVal.str "Z")] }
    [("consultas", SVal.lst [ItemVal.dict
      [("vrServicio", FieldVal.num 50), ("codeX", FieldVal.str "A")]])]
    [ItemVal.dict [("vrServicio", FieldVal.num 50), ("codeX", FieldVal.str "A")]]
    [("vrServicio", FieldVal.num 50), ("codeX", FieldVal.str "A")] 75
    rfl rfl rfl (by decide) (by decide) rfl rfl (by decide) (by decide) (by decide)
    (by decide) (by decide)).1
  exact h.trans (by decide)

/-- C9: a negative `idx_item` that resolves inside the existing category
list is accepted and updates the line at the Python-negative position
(`-1` updates the last line) rather than being rejected as out of range. -/
theorem claim_C9_indice_negativo :
    ∀ (factura : Option Doc) (nota : Doc) (fila : Fila) (i j : Int) (u : Usuario)
      (es : List (String × SVal)) (items : List ItemVal)
      (fields : List (String × FieldVal)) (q : ℚ),
      cellToInt fila.idx_usuario = some i →
      cellToInt fila.idx_item = some j →
      cellIsNa fila.vrServicio_nota = false →
      0 ≤ i → i < (nota.usuarios.length : Int) →
      nota.usuarios.get? i.toNat = some u →
      u.servicios = some (ServVal.dict es) →
      alistGet es (cellToStr fila.tipo_servicio) = some (SVal.lst items) →
      j < 0 → 0 ≤ j + (items.length : Int) →
      items.get? (j + (items.length : Int)).toNat = some (ItemVal.dict fields) →
      cellToFloat fila.vrServicio_nota = some q →
      procesarFila factura nota fila =
        some
          ({ nota with
              usuarios := nota.usuarios.set i.toNat
                  ({ u with
                      servicios := some (ServVal.dict (alistSet es
                          (cellToStr fila.tipo_servicio) (SVal.lst (items.set
                            (j + (items.length : Int)).toNat (ItemVal.dict
                              (alistSet fields "vrServicio" (FieldVal.num q))))))) }) },
            []) := by
  intro factura nota fila i j u es items fields q hU hI hna h0i hilen hu hs hl hneg h0j hit hq
  exact procesarFila_linea_existente factura nota fila i j (j + (items.length : Int)).toNat
    u es items fields q hU hI hna h0i hilen hu hs hl (by omega)
    (pyIndex_neg items.length j hneg h0j) hit hq

theorem claim_C9_witness :
    procesarFila none notaEjC9 filaEjC9 = some (notaResC9, []) := by
  have h := claim_C9_indice_negativo none notaEjC9 filaEjC9 0 (-1)
    { tipoDoc := some "CC", numDoc := some "1",
      servicios := some (ServVal.dict
        [("c", SVal.lst [ItemVal.dict [("vrServicio", FieldVal.num 1)],
                         ItemVal.dict [("vrServicio", FieldVal.num 2)]])]),
      extra := [] }
    [("c", SVal.lst [ItemVal.dict [("vrServicio", FieldVal.num 1)],
                     ItemVal.dict [("vrServicio", FieldVal.num 2)]])]
    [ItemVal.dict [("vrServicio", FieldVal.num 1)],
     ItemVal.dict [("vrServicio", FieldVal.num 2)]]
    [("vrServicio", FieldVal.num 2)] 99
    rfl rfl rfl (by decide) (by decide) rfl rfl (by decide) (by decide) (by decide)
    (by decide) (by decide)
  exact h.trans (by decide)

/-! ## C4: idempotence of the reconcile merge -/

/-- C4 counterexample: the invoice block `{"c": []}` is truthy but has no
items, so the user it is copied onto still fails `tiene_lista_con_items` and
is copied again: the second run reports one modified user, not zero. -/
theorem claim_C4_counterexample :
    ((copiar_servicios_factura_a_nota facEjC4 notaEjC4 none).bind fun p =>
        copiar_servicios_factura_a_nota facEjC4 p.1 none).map
      (fun p => p.2.usuarios_modificados) = some 1 := by decide

theorem pyOrServ_eq_some (a b : Option ServVal) (v : ServVal) (h : pyOrServ a b = some v) :
    a = some v ∨ b = some v := by
  cases a with
  | none => exact Or.inr h
  | some w =>
    by_cases ht : w.pyTruthy
    · simp only [pyOrServ, ht, if_true] at h
      exact Or.inl h
    · simp only [pyOrServ, ht, Bool.false_eq_true, if_false] at h
      exact Or.inr h

theorem buscarOrigen_prop {P : ServVal → Prop} (mf : List ((String × String) × ServVal))
    (mn : List (String × ServVal)) (tipo num : Option String) (v : ServVal)
    (hmf : ∀ k w, alistGet mf k = some w → P w)
    (hmn : ∀ k w, alistGet mn k = some w → P w)
    (h : buscarOrigen mf mn tipo num = some v) : P v := by
  unfold buscarOrigen at h
  rcases pyOrServ_eq_some _ _ _ h with h1 | h2
  · cases tipo with
    | none => simp at h1
    | some t =>
      cases num with
      | none => simp at h1
      | some n => exact hmf (t, n) v h1
  · cases num with
    | none => simp at h2
    | some n => exact hmn n v h2

theorem invMapFullAux_prop {P : ServVal → Prop} :
    ∀ (us : List Usuario) (acc : List ((String × String) × ServVal)),
      (∀ k w, alistGet acc k = some w → P w) →
      (∀ u ∈ us, P (servBlockOf u)) →
      ∀ k w, alistGet (invMapFullAux acc us) k = some w → P w := by
  intro us
  induction us with
  | nil =>
    intro acc hacc _ k w h
    exact hacc k w h
  | cons u rest ih =>
    intro acc hacc hus k w h
    simp only [invMapFullAux] at h
    cases ht : u.tipoDoc <;> cases hn : u.numDoc <;> rw [ht, hn] at h
    · exact ih acc hacc (fun u' hu' => hus u' (List.mem_cons_of_mem u hu')) k w h
    · exact ih acc hacc (fun u' hu' => hus u' (List.mem_cons_of_mem u hu')) k w h
    · exact ih acc hacc (fun u' hu' => hus u' (List.mem_cons_of_mem u hu')) k w h
    · refine ih _ ?_ (fun u' hu' => hus u' (List.mem_cons_of_mem u hu')) k w h
      intro k' w' h'
      rcases alistGet_alistSet_cases acc _ k' (servBlockOf u) w' h' with ⟨_, hw⟩ | hold
      · rw [hw]
        exact hus u (List.mem_cons_self u rest)
      · exact hacc k' w' hold

theorem invMapByNumAux_prop {P : ServVal → Prop} :
    ∀ (us : List Usuario) (acc : List (String × ServVal)),
      (∀ k w, alistGet acc k = some w → P w) →
      (∀ u ∈ us, P (servBlockOf u)) →
      ∀ k w, alistGet (invMapByNumAux acc us) k = some w → P w := by
  intro us
  induction us with
  | nil =>
    intro acc hacc _ k w h
    exact hacc k w h
  | cons u rest ih =>
    intro acc hacc hus k w h
    simp only [invMapByNumAux] at h
    cases ht : u.tipoDoc <;> cases hn : u.numDoc <;> rw [ht, hn] at h
    · exact ih acc hacc (fun u' hu' => hus u' (List.mem_cons_of_mem u hu')) k w h
    · exact ih acc hacc (fun u' hu' => hus u' (List.mem_cons_of_mem u hu')) k w h
    · exact ih acc hacc (fun u' hu' => hus u' (List.mem_cons_of_mem u hu')) k w h
    · refine ih _ ?_ (fun u' hu' => hus u' (List.mem_cons_of_mem u hu')) k w h
      intro k' w' h'
      rcases alistGet_alistSet_cases acc _ k' (servBlockOf u) w' h' with ⟨_, hw⟩ | hold
      · rw [hw]
        exact hus u (List.mem_cons_self u rest)
      · exact hacc k' w' hold

theorem tiene_servBlockOf (u : Usuario) (h : tiene_lista_con_items u.servicios = true) :
    tiene_lista_con_items (some (servBlockOf u)) = true := by
  cases hs : u.servicios with
  | none => rw [hs] at h; cases h
  | some sv =>
    rw [hs] at h
    simpa [servBlockOf, hs] using h

theorem tiene_ajustar (v v' : ServVal) (s : Int)
    (hv : tiene_lista_con_items (some v) = true)
    (h : ajustar_signo_servicios v s = some v') :
    tiene_lista_con_items (some v') = true := by
  cases v with
  | nondict t tag => simp [ajustar_signo_servicios] at h
  | dict entries =>
    simp only [ajustar_signo_servicios, Option.some.injEq] at h
    subst h
    simp only [tiene_lista_con_items, List.any_map] at hv ⊢
    rw [List.any_eq_true] at hv ⊢
    obtain ⟨kv, hmem, hp⟩ := hv
    refine ⟨kv, hmem, ?_⟩
    cases hkv : kv.2 with
    | lst items =>
      rw [hkv] at hp
      cases items with
      | nil => simp at hp
      | cons it rest => simp [Function.comp, hkv, ajustarLista]
    | nonlist t =>
      rw [hkv] at hp
      cases hp

theorem pasoUsuario_segunda (mf : List ((String × String) × ServVal))
    (mn : List (String × ServVal)) (signo : Option Int)
    (hmf : ∀ k w, alistGet mf k = some w → tiene_lista_con_items (some w) = true)
    (hmn : ∀ k w, alistGet mn k = some w → tiene_lista_con_items (some w) = true)
    (u : Usuario) (p : Usuario × Outcome) (h : pasoUsuario mf mn signo u = some p) :
    pasoUsuario mf mn signo p.1 = some (segundaPasada p) := by
  unfold pasoUsuario at h
  by_cases hty : tiene_lista_con_items u.servicios = true
  · rw [if_pos hty] at h
    injection h with h'
    subst h'
    unfold pasoUsuario
    rw [if_pos hty]
    rfl
  · rw [if_neg hty] at h
    cases hb : buscarOrigen mf mn u.tipoDoc u.numDoc with
    | none =>
      rw [hb] at h
      injection h with h'
      subst h'
      unfold pasoUsuario
      rw [if_neg hty, hb]
      rfl
    | some origen =>
      rw [hb] at h
      have horig : tiene_lista_con_items (some origen) = true :=
        buscarOrigen_prop mf mn u.tipoDoc u.numDoc origen hmf hmn hb
      have hfin : ∀ nuevo : ServVal, tiene_lista_con_items (some nuevo) = true →
          p = ({ u with servicios := some nuevo }, Outcome.mod) →
          pasoUsuario mf mn signo p.1 = some (segundaPasada p) := by
        intro nuevo hnuevo hp
        subst hp
        unfold pasoUsuario
        rw [if_pos hnuevo]
        rfl
      cases signo with
      | none =>
        injection h with h'
        exact hfin origen horig h'.symm
      | some s =>
        have h3 : (if s = 1 ∨ s = -1 then
            Option.map (fun nuevo => ({ u with servicios := some nuevo }, Outcome.mod))
              (ajustar_signo_servicios origen s)
          else some ({ u with servicios := some origen }, Outcome.mod)) = some p := h
        by_cases hs : s = 1 ∨ s = -1
        · rw [if_pos hs] at h3
          cases ha : ajustar_signo_servicios origen s with
          | none => rw [ha] at h3; cases h3
          | some nuevo =>
            rw [ha] at h3
            simp only [Option.map_some', Option.some.injEq] at h3
            exact hfin nuevo (tiene_ajustar origen nuevo s horig ha) h3.symm
        · rw [if_neg hs] at h3
          injection h3 with h'
          exact hfin origen horig h'.symm

theorem pasoNota_segunda (mf : List ((String × String) × ServVal))
    (mn : List (String × ServVal)) (signo : Option Int)
    (hmf : ∀ k w, alistGet mf k = some w → tiene_lista_con_items (some w) = true)
    (hmn : ∀ k w, alistGet mn k = some w → tiene_lista_con_items (some w) = true) :
    ∀ (us : List Usuario) (res : List (Usuario × Outcome)),
      pasoNota mf mn signo us = some res →
      pasoNota mf mn signo (res.map fun p => p.1) = some (res.map segundaPasada) := by
  intro us
  induction us with
  | nil =>
    intro res h
    simp only [pasoNota, Option.some.injEq] at h
    subst h
    rfl
  | cons u rest ih =>
    intro res h
    simp only [pasoNota] at h
    cases hp : pasoUsuario mf mn signo u with
    | none => rw [hp] at h; cases h
    | some p =>
      rw [hp] at h
      cases hr : pasoNota mf mn signo rest with
      | none => rw [hr] at h; cases h
      | some ps =>
        rw [hr] at h
        simp only [Option.map_some', Option.some.injEq] at h
        subst h
        simp only [List.map_cons, pasoNota]
        rw [pasoUsuario_segunda mf mn signo hmf hmn u p hp, ih ps hr]
        rfl

theorem countP_esMod_segunda (res : List (Usuario × Outcome)) :
    (res.map segundaPasada).countP esMod = 0 := by
  rw [List.countP_eq_zero]
  intro a ha
  simp only [List.mem_map] at ha
  obtain ⟨p, _, hpa⟩ := ha
  subst hpa
  cases hpo : p.2 <;> simp [segundaPasada, esMod, hpo]

/-- C4 amended: the merge is idempotent whenever every invoice user already
passes `tiene_lista_con_items` (so every indexed block has at least one
non-empty list): the second run returns the same note, reports zero
modified users and classifies every entry as already-satisfied or
unmatched.  (Without that proviso the counterexample re-copies an itemless
block forever.) -/
theorem claim_C4_amended_idempotencia :
    ∀ (f n : Doc) (s : Option Int) (n1 : Doc) (r1 : Resumen),
      (∀ u ∈ f.usuarios, tiene_lista_con_items u.servicios = true) →
      copiar_servicios_factura_a_nota f n s = some (n1, r1) →
      ∃ r2 : Resumen,
        copiar_servicios_factura_a_nota f n1 s = some (n1, r2)
          ∧ r2.usuarios_modificados = 0
          ∧ r2.total_usuarios_nota
              = r2.usuarios_ya_tenian_servicios + r2.usuarios_sin_encontrar.length := by
  intro f n s n1 r1 hf h
  have hmf : ∀ k w, alistGet (invMapFull f.usuarios) k = some w →
      tiene_lista_con_items (some w) = true :=
    invMapFullAux_prop f.usuarios [] (fun k w h' => by cases h')
      (fun u hu => tiene_servBlockOf u (hf u hu))
  have hmn : ∀ k w, alistGet (invMapByNum f.usuarios) k = some w →
      tiene_lista_con_items (some w) = true :=
    invMapByNumAux_prop f.usuarios [] (fun k w h' => by cases h')
      (fun u hu => tiene_servBlockOf u (hf u hu))
  simp only [copiar_servicios_factura_a_nota] at h ⊢
  cases hp : pasoNota (invMapFull f.usuarios) (invMapByNum f.usuarios) s n.usuarios with
  | none => rw [hp] at h; cases h
  | some res =>
    rw [hp] at h
    simp only [Option.map_some', Option.some.injEq, Prod.mk.injEq] at h
    obtain ⟨hn1, _⟩ := h
    have husers : n1.usuarios = res.map fun p => p.1 := by rw [← hn1]
    have h2 := pasoNota_segunda (invMapFull f.usuarios) (invMapByNum f.usuarios) s hmf hmn
      n.usuarios res hp
    rw [husers, h2]
    have hfst : (res.map segundaPasada).map (fun p => p.1) = res.map fun p => p.1 := by
      rw [List.map_map]
      rfl
    have hpart := outcomes_particion (res.map segundaPasada)
    rw [countP_esMod_segunda res] at hpart
    simp only [List.length_map] at hpart
    refine ⟨{ total_usuarios_factura := f.usuarios.length,
              total_usuarios_nota := (res.map fun p => p.1).length,
              usuarios_modificados := (res.map segundaPasada).countP esMod,
              usuarios_ya_tenian_servicios := (res.map segundaPasada).countP esYa,
              usuarios_sin_encontrar := ((res.map segundaPasada).filter esSin).map
                fun p => (p.1.tipoDoc, p.1.numDoc) }, ?_, ?_, ?_⟩
    · simp only [Option.map_some', Option.some.injEq, Prod.mk.injEq]
      constructor
      · rw [← hn1]
        simp only [Doc.mk.injEq]
        exact ⟨hfst, trivial⟩
      · trivial
    · exact countP_esMod_segunda res
    · simp only [List.length_map]
      omega

theorem claim_C4_amended_witness :
    ∃ r2 : Resumen,
      copiar_servicios_factura_a_nota facEjC4w notaEjC4w1 none = some (notaEjC4w1, r2)
        ∧ r2.usuarios_modificados = 0
        ∧ r2.total_usuarios_nota
            = r2.usuarios_ya_tenian_servicios + r2.usuarios_sin_encontrar.length :=
  claim_C4_amended_idempotencia facEjC4w notaEjC4w none notaEjC4w1 resEjC4w1
    (by decide) (by decide)
